import Mathlib

/-!
Verification of the face-registration service (`src/app.py`).

The service is a small request/response application with five exposed
operations: `process_image` (filter application), `detect_faces`,
`register_face`, `get_attendance` and `get_registered_faces`, backed by an
in-memory `face_database` holding three lists (`faces`, `names`,
`attendance`).

External libraries (the `cv2` image decoder, the Haar cascade classifier,
and the PIL filter primitives) are modelled as abstract function fields of
an environment record (`Env`, `PILEnv`): the control flow, state updates,
error checks and response construction of `app.py` are transcribed
faithfully into Lean functions that take such an environment.
-/

/-- Raw uploaded bytes. -/
abbrev Bytes := List Nat

/-- A colour image as returned by `cv2.imdecode(..., IMREAD_COLOR)`:
height × width × 3 array of samples (`shape[0]` = number of rows). -/
abbrev Img := List (List (List Nat))

/-- A grayscale image as returned by `cv2.cvtColor(..., COLOR_BGR2GRAY)`. -/
abbrev Gray := List (List Nat)

/-- A detection rectangle `(x, y, w, h)` as yielded by
`detectMultiScale`. -/
structure Rect where
  x : Nat
  y : Nat
  w : Nat
  h : Nat
deriving DecidableEq, Repr

/-- An attendance entry (name, timestamp).  `app.py` declares the
`attendance` list but contains no code that ever constructs such an
entry. -/
structure AttendanceRecord where
  name : String
  timestamp : Nat
deriving DecidableEq, Repr

/-- One element of `face_database['faces']`: the cropped face region
(`region`) plus the bounding-box coordinates stored in the `location`
dict (`x`, `y`, `w`, `h`), from `app.py` lines 180-183. -/
structure FaceRecord where
  region : Img
  x : Nat
  y : Nat
  w : Nat
  h : Nat
deriving DecidableEq, Repr

/-- The module-level `face_database` dict of `app.py` lines 15-19:
three parallel lists. -/
structure FaceDatabase where
  faces : List FaceRecord
  names : List String
  attendance : List AttendanceRecord
deriving DecidableEq, Repr

/-- The initial state of `face_database`: all three lists empty
(`app.py` lines 15-19). -/
def face_database : FaceDatabase :=
  { faces := [], names := [], attendance := [] }

/-- The external computer-vision capabilities used by `detect_faces` and
`register_face`: `cv2.imdecode` (colour decode, `none` when the bytes are
not a valid image), `cv2.cvtColor(..., COLOR_BGR2GRAY)`, the directory
`cv2.data.haarcascades`, and `CascadeClassifier.detectMultiScale`
parameterised by the cascade file, the scale factor and the min-neighbours
threshold. -/
structure Env where
  imdecode : Bytes → Option Img
  cvtColorGray : Img → Gray
  haarcascades : String
  detectMultiScale : String → Gray → Rat → Nat → List Rect

/-- Python's `str.strip()` with no argument (`app.py` line 141): remove
leading and trailing whitespace characters. -/
def pyStrip (s : String) : String :=
  ⟨((s.data.dropWhile Char.isWhitespace).reverse.dropWhile Char.isWhitespace).reverse⟩

/-- Numpy slicing `image[y:y+h, x:x+w]` used at `app.py` line 177 to crop
the detected face region out of the colour image. -/
def cropRegion (image : Img) (x y w h : Nat) : Img :=
  ((image.drop y).take h).map (fun row => (row.drop x).take w)

/-- `image.shape[0]`: the height of the decoded image. -/
def imgHeight (image : Img) : Nat := image.length

/-- `image.shape[1]`: the width of the decoded image. -/
def imgWidth (image : Img) : Nat := (image.headD []).length

/-- A JSON response of `app.py`: either `jsonify({"error": msg}), code` or
a success payload. -/
inductive ApiResult (α : Type) where
  | err (msg : String) (code : Nat)
  | ok (payload : α)
deriving DecidableEq, Repr

/-- Success payload of `/register-face` (`app.py` lines 186-190). -/
structure RegisterOk where
  message : String
  total_registered : Nat
deriving DecidableEq, Repr

/-- The `location` dict of one detected face in the `/detect-faces`
response (`app.py` lines 109-114). -/
structure FaceEntryLoc where
  top : Nat
  right : Nat
  bottom : Nat
  left : Nat
deriving DecidableEq, Repr

/-- One element of `faces_data` in the `/detect-faces` response
(`app.py` lines 107-118). -/
structure FaceEntry where
  id : Nat
  location : FaceEntryLoc
  name : String
  confidence : Rat
  is_known : Bool
deriving DecidableEq, Repr

/-- Success payload of `/detect-faces` (`app.py` lines 120-128). -/
structure DetectOk where
  faces_detected : Nat
  faces : List FaceEntry
  width : Nat
  height : Nat
deriving DecidableEq, Repr

/-- Success payload of `/attendance` (`app.py` lines 197-201). -/
structure AttendanceOk where
  attendance : List AttendanceRecord
  total_records : Nat
deriving DecidableEq, Repr

/-- Success payload of `/registered-faces` (`app.py` lines 205-209). -/
structure RegisteredOk where
  registered_faces : List String
  total_registered : Nat
deriving DecidableEq, Repr

/-- The face scan performed inside `detect_faces` (`app.py` lines
93-99): load the frontal-face cascade from
`cv2.data.haarcascades + 'haarcascade_frontalface_default.xml'`, convert
the colour image to grayscale, and run `detectMultiScale(gray, 1.1, 4)`. -/
def detect_faces_scan (env : Env) (image : Img) : List Rect :=
  env.detectMultiScale (env.haarcascades ++ "haarcascade_frontalface_default.xml")
    (env.cvtColorGray image) ((11 : Rat) / 10) 4

/-- The face scan performed inside `register_face` (`app.py` lines
160-166): the same cascade file, the same grayscale conversion, and
`detectMultiScale(gray, 1.1, 4)` again. -/
def register_face_scan (env : Env) (image : Img) : List Rect :=
  env.detectMultiScale (env.haarcascades ++ "haarcascade_frontalface_default.xml")
    (env.cvtColorGray image) ((11 : Rat) / 10) 4

/-- The body of the `for i, (x, y, w, h) in enumerate(faces)` loop of
`detect_faces` (`app.py` lines 103-118): from the 0-based position `p.1`
and the rectangle `p.2`, build the response entry with 1-based `id`, the
top/right/bottom/left `location` dict, constant name `"Unknown"`,
constant confidence `0.8` and constant `is_known = False`. -/
def faceEntryOf (p : Nat × Rect) : FaceEntry :=
  { id := p.1 + 1
    location := { top := p.2.y, right := p.2.x + p.2.w,
                  bottom := p.2.y + p.2.h, left := p.2.x }
    name := "Unknown"
    confidence := (8 : Rat) / 10
    is_known := false }

/-- The `/detect-faces` endpoint (`app.py` lines 71-131).  `fileField` is
`request.files['image']` (`none` when absent) as a pair of filename and
bytes. -/
def detect_faces (env : Env) (fileField : Option (String × Bytes)) :
    ApiResult DetectOk :=
  match fileField with
  | none => .err "No image file provided" 400
  | some (filename, image_data) =>
    if filename = "" then .err "No image file selected" 400
    else
      match env.imdecode image_data with
      | none => .err "Invalid image format" 400
      | some image =>
        let faces := detect_faces_scan env image
        let faces_data := faces.enum.map faceEntryOf
        .ok { faces_detected := faces_data.length
              faces := faces_data
              width := imgWidth image
              height := imgHeight image }

/-- The `/register-face` endpoint (`app.py` lines 133-193), returning the
new registry state together with the JSON response.  `nameField` is
`request.form.get('name', '')` (`none` when the form field is absent);
the code trims it with `.strip()` immediately. -/
def register_face (env : Env) (db : FaceDatabase)
    (fileField : Option (String × Bytes)) (nameField : Option String) :
    FaceDatabase × ApiResult RegisterOk :=
  match fileField with
  | none => (db, .err "No image file provided" 400)
  | some (filename, image_data) =>
    let name := pyStrip (nameField.getD "")
    if filename = "" then (db, .err "No image file selected" 400)
    else if name = "" then (db, .err "Name is required" 400)
    else
      match env.imdecode image_data with
      | none => (db, .err "Invalid image format" 400)
      | some image =>
        let faces := register_face_scan env image
        if faces.length = 0 then (db, .err "No face found in the image" 400)
        else if faces.length > 1 then
          (db, .err "Multiple faces found. Please use an image with only one face" 400)
        else
          let r := faces.headD { x := 0, y := 0, w := 0, h := 0 }
          let face_region := cropRegion image r.x r.y r.w r.h
          let db' : FaceDatabase :=
            { db with
              faces := db.faces ++ [{ region := face_region,
                                      x := r.x, y := r.y, w := r.w, h := r.h }]
              names := db.names ++ [name] }
          (db', .ok { message := "Face registered successfully for " ++ name
                      total_registered := db'.faces.length })

/-- The `/attendance` endpoint (`app.py` lines 195-201): a pure read of
the `attendance` list and its length. -/
def get_attendance (db : FaceDatabase) : ApiResult AttendanceOk :=
  .ok { attendance := db.attendance, total_records := db.attendance.length }

/-- The `/registered-faces` endpoint (`app.py` lines 203-209): a pure
read of the `names` list and of `len(face_database['faces'])`. -/
def get_registered_faces (db : FaceDatabase) : ApiResult RegisteredOk :=
  .ok { registered_faces := db.names, total_registered := db.faces.length }

/-- The PIL capabilities used by `process_image`: `Image.open` (failing
with the exception message when the bytes do not parse), `convert('L')`,
the three `ImageFilter` kernels, `save(..., format='PNG')` and
`base64.b64encode(...).decode('utf-8')`.  `γ` is the abstract type of PIL
image objects. -/
structure PILEnv (γ : Type) where
  pilOpen : Bytes → Except String γ
  convertL : γ → γ
  filterBlur : γ → γ
  filterSharpen : γ → γ
  filterFindEdges : γ → γ
  savePNG : γ → Bytes
  b64encode : Bytes → String

/-- Success payload of `/process-image` (`app.py` lines 62-66). -/
structure ProcessOk where
  processed_image : String
  process_type : String
deriving DecidableEq, Repr

/-- The filter dispatch of `process_image` (`app.py` lines 43-52):
string comparison against the four known kinds, with the final `else`
falling back to `image.convert('L')`, the same call as the `grayscale`
branch. -/
def applyProcessType (env : PILEnv γ) (process_type : String) (image : γ) : γ :=
  if process_type = "grayscale" then env.convertL image
  else if process_type = "blur" then env.filterBlur image
  else if process_type = "sharpen" then env.filterSharpen image
  else if process_type = "edge" then env.filterFindEdges image
  else env.convertL image

/-- The `/process-image` endpoint (`app.py` lines 25-69).  `typeField` is
`request.form.get('type', 'grayscale')`.  A PIL decode failure is caught
by the outer `except` and reported with status 500. -/
def process_image (env : PILEnv γ) (fileField : Option (String × Bytes))
    (typeField : Option String) : ApiResult ProcessOk :=
  match fileField with
  | none => .err "No image file provided" 400
  | some (filename, data) =>
    if filename = "" then .err "No image file selected" 400
    else
      let process_type := typeField.getD "grayscale"
      match env.pilOpen data with
      | .error e => .err e 500
      | .ok image =>
        let processed_image := applyProcessType env process_type image
        let img_base64 := env.b64encode (env.savePNG processed_image)
        .ok { processed_image := "data:image/png;base64," ++ img_base64
              process_type := process_type }

/-- One incoming request to any of the exposed routes of `app.py`. -/
inductive Request where
  | health
  | processImage (file : Option (String × Bytes)) (ptype : Option String)
  | detectFaces (file : Option (String × Bytes))
  | registerFace (file : Option (String × Bytes)) (nm : Option String)
  | attendance
  | registeredFaces
deriving Repr

/-- The effect of one request on `face_database`: only `register_face`
writes to the store; every other handler at most reads it. -/
def stepDB (env : Env) (db : FaceDatabase) : Request → FaceDatabase
  | .registerFace file nm => (register_face env db file nm).1
  | _ => db

/-- The registry state after serving a sequence of requests. -/
def runRequests (env : Env) (db : FaceDatabase) : List Request → FaceDatabase
  | [] => db
  | r :: rs => runRequests env (stepDB env db r) rs

/-! ### Concrete instances for evaluation -/

/-- A tiny concrete 2×2 colour image used for concrete evaluations. -/
def wImg : Img := [[[10, 20, 30], [40, 50, 60]], [[70, 80, 90], [100, 110, 120]]]

/-- A concrete detection rectangle. -/
def wRect : Rect := { x := 0, y := 0, w := 1, h := 1 }

/-- A second concrete detection rectangle. -/
def wRect2 : Rect := { x := 1, y := 1, w := 1, h := 1 }

/-- A concrete environment whose decoder accepts any non-empty byte list
(yielding `wImg`) and whose classifier always reports `fs`. -/
def wEnv (fs : List Rect) : Env :=
  { imdecode := fun bs => if bs.isEmpty then none else some wImg
    cvtColorGray := fun image => image.map (fun row => row.map (fun px => px.headD 0))
    haarcascades := "/haar/"
    detectMultiScale := fun _ _ _ _ => fs }

/-- A concrete PIL environment over `γ := Nat`. -/
def wPEnv : PILEnv Nat :=
  { pilOpen := fun bs => if bs.isEmpty then .error "cannot identify image file" else .ok bs.length
    convertL := fun n => n + 1
    filterBlur := fun n => n + 2
    filterSharpen := fun n => n + 3
    filterFindEdges := fun n => n + 4
    savePNG := fun n => [n]
    b64encode := fun bs => toString bs.length }

/-! ### Helper lemmas -/

/-- Every call to `register_face` either leaves the registry untouched and
returns an error response, or appends exactly one record and one name and
returns the success response for the new count. -/
lemma register_face_cases (env : Env) (db : FaceDatabase)
    (file : Option (String × Bytes)) (nm : Option String) :
    ((register_face env db file nm).1 = db ∧
      ∃ m c, (register_face env db file nm).2 = .err m c) ∨
    (∃ rec n, (register_face env db file nm).1 =
        { db with faces := db.faces ++ [rec], names := db.names ++ [n] } ∧
      (register_face env db file nm).2 =
        .ok { message := "Face registered successfully for " ++ n
              total_registered := db.faces.length + 1 }) := by
  rcases file with _ | ⟨fn, data⟩
  · exact Or.inl ⟨rfl, "No image file provided", 400, rfl⟩
  by_cases hfn : fn = ""
  · exact Or.inl ⟨by simp [register_face, hfn], "No image file selected", 400,
      by simp [register_face, hfn]⟩
  by_cases hnm : pyStrip (nm.getD "") = ""
  · exact Or.inl ⟨by simp [register_face, hfn, hnm], "Name is required", 400,
      by simp [register_face, hfn, hnm]⟩
  rcases hdec : env.imdecode data with _ | image
  · exact Or.inl ⟨by simp [register_face, hfn, hnm, hdec], "Invalid image format", 400,
      by simp [register_face, hfn, hnm, hdec]⟩
  by_cases h0 : (register_face_scan env image).length = 0
  · exact Or.inl ⟨by simp [register_face, hfn, hnm, hdec, h0],
      "No face found in the image", 400, by simp [register_face, hfn, hnm, hdec, h0]⟩
  by_cases h1 : (register_face_scan env image).length > 1
  · exact Or.inl ⟨by simp [register_face, hfn, hnm, hdec, h0, h1],
      "Multiple faces found. Please use an image with only one face", 400,
      by simp [register_face, hfn, hnm, hdec, h0, h1]⟩
  · have hne : register_face_scan env image ≠ [] := by
      intro h; exact h0 (by simp [h])
    obtain ⟨r, rs, hr⟩ := List.exists_cons_of_ne_nil hne
    have hrs : rs = [] := by
      rw [hr] at h0 h1
      simp only [List.length_cons, gt_iff_lt, not_lt] at h1
      exact List.eq_nil_of_length_eq_zero (by omega)
    subst hrs
    refine Or.inr ⟨⟨cropRegion image r.x r.y r.w r.h, r.x, r.y, r.w, r.h⟩,
      pyStrip (nm.getD ""), ?_, ?_⟩ <;>
      simp [register_face, hfn, hnm, hdec, hr]

/-- Successful registration computed explicitly: with a present file, a
non-empty filename, a name that is non-empty after trimming, a decodable
image and exactly one detected face, `register_face` crops the image to
the detected bounding box, appends the record and the trimmed name, and
reports the new count. -/
lemma register_face_ok_eq (env : Env) (db : FaceDatabase)
    (fn : String) (data : Bytes) (nm : String) (image : Img) (r : Rect)
    (hfn : fn ≠ "") (hnm : pyStrip nm ≠ "") (hdec : env.imdecode data = some image)
    (hscan : register_face_scan env image = [r]) :
    register_face env db (some (fn, data)) (some nm) =
      (⟨db.faces ++ [⟨cropRegion image r.x r.y r.w r.h, r.x, r.y, r.w, r.h⟩],
        db.names ++ [pyStrip nm], db.attendance⟩,
        .ok ⟨"Face registered successfully for " ++ pyStrip nm, db.faces.length + 1⟩) := by
  simp [register_face, hfn, hnm, hdec, hscan]

/-- Only `register_face` writes the store, and it never touches the
`attendance` list. -/
lemma stepDB_attendance (env : Env) (db : FaceDatabase) (r : Request) :
    (stepDB env db r).attendance = db.attendance := by
  cases r
  any_goals rfl
  case registerFace file nmf =>
    rcases register_face_cases env db file nmf with ⟨h, _⟩ | ⟨rec, n, h, _⟩ <;>
      simp [stepDB, h]

/-- The attendance list is untouched by any sequence of requests. -/
lemma runRequests_attendance (env : Env) (reqs : List Request) :
    ∀ db : FaceDatabase, (runRequests env db reqs).attendance = db.attendance := by
  induction reqs with
  | nil => intro db; rfl
  | cons r rs ih => intro db; rw [runRequests, ih, stepDB_attendance]

/-- Claim C9: no exposed operation ever appends to the attendance list:
starting from the empty initial state, after any sequence of requests the
attendance sequence is still empty, and the attendance query returns that
sequence together with its length, hence always reports zero records. -/
theorem C9_attendance_stays_empty (env : Env) (reqs : List Request) :
    (runRequests env face_database reqs).attendance = [] ∧
    get_attendance (runRequests env face_database reqs) =
      .ok ⟨(runRequests env face_database reqs).attendance,
           (runRequests env face_database reqs).attendance.length⟩ ∧
    get_attendance (runRequests env face_database reqs) = .ok ⟨[], 0⟩ := by
  have h : (runRequests env face_database reqs).attendance = [] :=
    runRequests_attendance env reqs face_database
  exact ⟨h, rfl, by simp [get_attendance, h]⟩

/-- Claim C1: the registry's two parallel sequences have equal length in
the initial state and after every request; every request leaves each old
sequence an unchanged prefix of the new one (append-only, no removal or
reordering); and every successful registration appends exactly one
element to each, so the new record and the new name share the same
index. -/
theorem C1_parallel_sequences (env : Env) :
    face_database.faces.length = face_database.names.length ∧
    (∀ (db : FaceDatabase) (r : Request), db.faces.length = db.names.length →
      (stepDB env db r).faces.length = (stepDB env db r).names.length) ∧
    (∀ (db : FaceDatabase) (r : Request),
      ∃ t, (stepDB env db r).faces = db.faces ++ t) ∧
    (∀ (db : FaceDatabase) (r : Request),
      ∃ t, (stepDB env db r).names = db.names ++ t) ∧
    (∀ (db : FaceDatabase) (file : Option (String × Bytes)) (nmf : Option String)
        (db' : FaceDatabase) (okp : RegisterOk),
      register_face env db file nmf = (db', .ok okp) →
      ∃ rec n, db'.faces = db.faces ++ [rec] ∧ db'.names = db.names ++ [n] ∧
        db'.faces.length = db.faces.length + 1 ∧
        db'.names.length = db.names.length + 1) := by
  refine ⟨rfl, ?_, ?_, ?_, ?_⟩
  · intro db r h
    cases r
    any_goals exact h
    case registerFace file nmf =>
      rcases register_face_cases env db file nmf with ⟨h1, _⟩ | ⟨rec, n, h1, _⟩ <;>
        simp [stepDB, h1, h]
  · intro db r
    cases r
    case registerFace file nmf =>
      rcases register_face_cases env db file nmf with ⟨h1, _⟩ | ⟨rec, n, h1, _⟩
      · exact ⟨[], by simp [stepDB, h1]⟩
      · exact ⟨[rec], by simp [stepDB, h1]⟩
    all_goals exact ⟨[], (List.append_nil _).symm⟩
  · intro db r
    cases r
    case registerFace file nmf =>
      rcases register_face_cases env db file nmf with ⟨h1, _⟩ | ⟨rec, n, h1, _⟩
      · exact ⟨[], by simp [stepDB, h1]⟩
      · exact ⟨[n], by simp [stepDB, h1]⟩
    all_goals exact ⟨[], (List.append_nil _).symm⟩
  · intro db file nmf db' okp heq
    rcases register_face_cases env db file nmf with ⟨h1, m, c, h2⟩ | ⟨rec, n, h1, h2⟩
    · rw [heq] at h2
      exact absurd h2 (by simp)
    · rw [heq] at h1
      subst h1
      exact ⟨rec, n, rfl, rfl, by simp, by simp⟩

/-- Concrete instance of `C1_parallel_sequences`: one successful
registration on the concrete environment, with both hypotheses
discharged by evaluation. -/
theorem C1_parallel_sequences_witness :
    (stepDB (wEnv [wRect]) face_database
        (Request.registerFace (some ("f.png", [1])) (some "Alice"))).faces.length =
      (stepDB (wEnv [wRect]) face_database
        (Request.registerFace (some ("f.png", [1])) (some "Alice"))).names.length ∧
    ∃ rec n,
      (FaceDatabase.mk [⟨[[[10, 20, 30]]], 0, 0, 1, 1⟩] ["Alice"] []).faces =
          face_database.faces ++ [rec] ∧
        (FaceDatabase.mk [⟨[[[10, 20, 30]]], 0, 0, 1, 1⟩] ["Alice"] []).names =
          face_database.names ++ [n] ∧
        (FaceDatabase.mk [⟨[[[10, 20, 30]]], 0, 0, 1, 1⟩] ["Alice"] []).faces.length =
          face_database.faces.length + 1 ∧
        (FaceDatabase.mk [⟨[[[10, 20, 30]]], 0, 0, 1, 1⟩] ["Alice"] []).names.length =
          face_database.names.length + 1 := by
  refine ⟨(C1_parallel_sequences (wEnv [wRect])).2.1 face_database _ rfl, ?_⟩
  exact (C1_parallel_sequences (wEnv [wRect])).2.2.2.2 face_database
    (some ("f.png", [1])) (some "Alice")
    (FaceDatabase.mk [⟨[[[10, 20, 30]]], 0, 0, 1, 1⟩] ["Alice"] [])
    (RegisterOk.mk "Face registered successfully for Alice" 1) (by decide)

/-- Claim C7: the detect-faces flow and the register-face flow run the
same detection computation: the same cascade file, the same grayscale
conversion, and `detectMultiScale` with scale factor 1.1 and
min-neighbours threshold 4; on every decoded image both flows compute an
identical sequence of bounding boxes. -/
theorem C7_same_detection (env : Env) (image : Img) :
    detect_faces_scan env image = register_face_scan env image ∧
    detect_faces_scan env image =
      env.detectMultiScale (env.haarcascades ++ "haarcascade_frontalface_default.xml")
        (env.cvtColorGray image) ((11 : Rat) / 10) 4 :=
  ⟨rfl, rfl⟩

/-- Claim C2: with a decodable image and a non-empty trimmed name, zero
detected faces yields the no-face validation error and more than one
face yields the multiple-faces validation error; in both cases the
returned registry state is exactly the input state, so the
total-registered count is unchanged. -/
theorem C2_zero_or_multi_faces (env : Env) (db : FaceDatabase)
    (fn : String) (data : Bytes) (nm : String) (image : Img)
    (hfn : fn ≠ "") (hnm : pyStrip nm ≠ "") (hdec : env.imdecode data = some image) :
    (register_face_scan env image = [] →
      register_face env db (some (fn, data)) (some nm) =
        (db, .err "No face found in the image" 400)) ∧
    (1 < (register_face_scan env image).length →
      register_face env db (some (fn, data)) (some nm) =
        (db, .err "Multiple faces found. Please use an image with only one face" 400)) := by
  constructor
  · intro h
    simp [register_face, hfn, hnm, hdec, h]
  · intro h
    have h0 : ¬(register_face_scan env image).length = 0 := by omega
    simp [register_face, hfn, hnm, hdec, h0, h]

/-- Concrete instance of `C2_zero_or_multi_faces`: a zero-face
environment and a two-face environment, all hypotheses evaluated. -/
theorem C2_zero_or_multi_faces_witness :
    register_face (wEnv []) face_database (some ("f.png", [1])) (some "Bob") =
      (face_database, .err "No face found in the image" 400) ∧
    register_face (wEnv [wRect, wRect2]) face_database (some ("f.png", [1])) (some "Bob") =
      (face_database, .err "Multiple faces found. Please use an image with only one face" 400) := by
  constructor
  · exact (C2_zero_or_multi_faces (wEnv []) face_database "f.png" [1] "Bob" wImg
      (by decide) (by decide) (by decide)).1 (by decide)
  · exact (C2_zero_or_multi_faces (wEnv [wRect, wRect2]) face_database "f.png" [1] "Bob" wImg
      (by decide) (by decide) (by decide)).2 (by decide)

/-- Claim C3: with a non-empty trimmed name, a decodable image and
exactly one detected face, registration crops the image to the detected
bounding box, appends the record and the trimmed name at the same new
index, increments the count by exactly one and returns success carrying
the new total. -/
theorem C3_successful_registration (env : Env) (db : FaceDatabase)
    (fn : String) (data : Bytes) (nm : String) (image : Img) (r : Rect)
    (hfn : fn ≠ "") (hnm : pyStrip nm ≠ "") (hdec : env.imdecode data = some image)
    (hscan : register_face_scan env image = [r]) :
    register_face env db (some (fn, data)) (some nm) =
      (⟨db.faces ++ [⟨cropRegion image r.x r.y r.w r.h, r.x, r.y, r.w, r.h⟩],
        db.names ++ [pyStrip nm], db.attendance⟩,
        .ok ⟨"Face registered successfully for " ++ pyStrip nm, db.faces.length + 1⟩) :=
  register_face_ok_eq env db fn data nm image r hfn hnm hdec hscan

/-- Concrete instance of `C3_successful_registration`: one face, a name
with surrounding whitespace, everything evaluated. -/
theorem C3_successful_registration_witness :
    register_face (wEnv [wRect]) face_database (some ("f.png", [1])) (some " Carol ") =
      (⟨[⟨[[[10, 20, 30]]], 0, 0, 1, 1⟩], ["Carol"], []⟩,
        .ok ⟨"Face registered successfully for Carol", 1⟩) := by
  rw [C3_successful_registration (wEnv [wRect]) face_database "f.png" [1] " Carol " wImg wRect
    (by decide) (by decide) (by decide) (by decide)]
  decide

/-- Claim C4: the error checks of `register_face` are decided in the
spec's priority order: an empty trimmed name yields the name-required
error whatever the image bytes are (even undecodable ones); with a
non-empty name an undecodable image yields the invalid-image error
before any face counting; and only with a non-empty name and a decoded
image is the face-cardinality check reached. -/
theorem C4_error_priority (env : Env) (db : FaceDatabase)
    (fn : String) (data : Bytes) (nmf : Option String) (hfn : fn ≠ "") :
    (pyStrip (nmf.getD "") = "" →
      register_face env db (some (fn, data)) nmf = (db, .err "Name is required" 400)) ∧
    (pyStrip (nmf.getD "") ≠ "" → env.imdecode data = none →
      register_face env db (some (fn, data)) nmf = (db, .err "Invalid image format" 400)) ∧
    (pyStrip (nmf.getD "") ≠ "" → ∀ image, env.imdecode data = some image →
      register_face_scan env image = [] →
      register_face env db (some (fn, data)) nmf =
        (db, .err "No face found in the image" 400)) := by
  refine ⟨fun h => by simp [register_face, hfn, h],
    fun h hd => by simp [register_face, hfn, h, hd],
    fun h image hd hs => by simp [register_face, hfn, h, hd, hs]⟩

/-- Concrete instance of `C4_error_priority`: undecodable bytes with a
whitespace-only name lose to the name check; undecodable bytes with a
real name yield the invalid-image error. -/
theorem C4_error_priority_witness :
    register_face (wEnv []) face_database (some ("f.png", [])) (some "  ") =
      (face_database, .err "Name is required" 400) ∧
    register_face (wEnv []) face_database (some ("f.png", [])) (some "Dan") =
      (face_database, .err "Invalid image format" 400) := by
  constructor
  · exact (C4_error_priority (wEnv []) face_database "f.png" [] (some "  ")
      (by decide)).1 (by decide)
  · exact (C4_error_priority (wEnv []) face_database "f.png" [] (some "Dan")
      (by decide)).2.1 (by decide) (by decide)

/-- Claim C8: no uniqueness check across names is performed: registering
the same name twice with two single-face images succeeds both times,
increments the total-registered count by two overall, and leaves two
separate records in the registry, both paired with that name. -/
theorem C8_no_name_uniqueness (env : Env) (db : FaceDatabase)
    (fn1 fn2 : String) (d1 d2 : Bytes) (nm : String)
    (image1 image2 : Img) (r1 r2 : Rect)
    (hfn1 : fn1 ≠ "") (hfn2 : fn2 ≠ "") (hnm : pyStrip nm ≠ "")
    (hdec1 : env.imdecode d1 = some image1) (hdec2 : env.imdecode d2 = some image2)
    (hscan1 : register_face_scan env image1 = [r1])
    (hscan2 : register_face_scan env image2 = [r2]) :
    ∃ db1 okp1 db2 okp2,
      register_face env db (some (fn1, d1)) (some nm) = (db1, .ok okp1) ∧
      register_face env db1 (some (fn2, d2)) (some nm) = (db2, .ok okp2) ∧
      okp1.total_registered = db.faces.length + 1 ∧
      okp2.total_registered = db.faces.length + 2 ∧
      db2.faces.length = db.faces.length + 2 ∧
      (∃ rec1 rec2, db2.faces = db.faces ++ [rec1, rec2]) ∧
      db2.names = db.names ++ [pyStrip nm, pyStrip nm] := by
  have h1 := register_face_ok_eq env db fn1 d1 nm image1 r1 hfn1 hnm hdec1 hscan1
  have h2 := register_face_ok_eq env
    ⟨db.faces ++ [⟨cropRegion image1 r1.x r1.y r1.w r1.h, r1.x, r1.y, r1.w, r1.h⟩],
      db.names ++ [pyStrip nm], db.attendance⟩
    fn2 d2 nm image2 r2 hfn2 hnm hdec2 hscan2
  refine ⟨_, _, _, _, h1, h2, rfl, by simp, by simp,
    ⟨⟨cropRegion image1 r1.x r1.y r1.w r1.h, r1.x, r1.y, r1.w, r1.h⟩,
      ⟨cropRegion image2 r2.x r2.y r2.w r2.h, r2.x, r2.y, r2.w, r2.h⟩, by simp⟩, by simp⟩

/-- Concrete instance of `C8_no_name_uniqueness`: the same name
registered twice on the concrete one-face environment. -/
theorem C8_no_name_uniqueness_witness :
    ∃ db1 okp1 db2 okp2,
      register_face (wEnv [wRect]) face_database (some ("a.png", [1])) (some "Bob") =
        (db1, .ok okp1) ∧
      register_face (wEnv [wRect]) db1 (some ("b.png", [2])) (some "Bob") =
        (db2, .ok okp2) ∧
      okp1.total_registered = face_database.faces.length + 1 ∧
      okp2.total_registered = face_database.faces.length + 2 ∧
      db2.faces.length = face_database.faces.length + 2 ∧
      (∃ rec1 rec2, db2.faces = face_database.faces ++ [rec1, rec2]) ∧
      db2.names = face_database.names ++ [pyStrip "Bob", pyStrip "Bob"] :=
  C8_no_name_uniqueness (wEnv [wRect]) face_database "a.png" "b.png" [1] [2] "Bob"
    wImg wImg wRect wRect (by decide) (by decide) (by decide) (by decide) (by decide)
    (by decide) (by decide)

/-- Claim C10: the name stored by a successful registration and echoed
in the success message is the whitespace-trimmed name, not the raw
submitted string; two submissions whose names differ only by surrounding
whitespace store identical names. -/
theorem C10_trimmed_name_stored (env : Env) (db : FaceDatabase)
    (fn : String) (data : Bytes) (nm : String) (image : Img) (r : Rect)
    (hfn : fn ≠ "") (hnm : pyStrip nm ≠ "") (hdec : env.imdecode data = some image)
    (hscan : register_face_scan env image = [r]) :
    ((register_face env db (some (fn, data)) (some nm)).1.names =
        db.names ++ [pyStrip nm]) ∧
    (∃ okp, (register_face env db (some (fn, data)) (some nm)).2 = .ok okp ∧
      okp.message = "Face registered successfully for " ++ pyStrip nm) ∧
    (∀ nm2, pyStrip nm2 = pyStrip nm →
      (register_face env db (some (fn, data)) (some nm2)).1.names =
        (register_face env db (some (fn, data)) (some nm)).1.names) := by
  have h1 := register_face_ok_eq env db fn data nm image r hfn hnm hdec hscan
  refine ⟨by rw [h1], ⟨_, by rw [h1], rfl⟩, ?_⟩
  intro nm2 h2
  have hnm2 : pyStrip nm2 ≠ "" := by rw [h2]; exact hnm
  have h3 := register_face_ok_eq env db fn data nm2 image r hfn hnm2 hdec hscan
  rw [h1, h3, h2]

/-- Concrete instance of `C10_trimmed_name_stored`: the submitted name
carries surrounding whitespace. -/
theorem C10_trimmed_name_stored_witness :
    ((register_face (wEnv [wRect]) face_database (some ("f.png", [1]))
        (some " Eve ")).1.names = face_database.names ++ [pyStrip " Eve "]) ∧
    (∃ okp, (register_face (wEnv [wRect]) face_database (some ("f.png", [1]))
        (some " Eve ")).2 = .ok okp ∧
      okp.message = "Face registered successfully for " ++ pyStrip " Eve ") ∧
    (∀ nm2, pyStrip nm2 = pyStrip " Eve " →
      (register_face (wEnv [wRect]) face_database (some ("f.png", [1]))
          (some nm2)).1.names =
        (register_face (wEnv [wRect]) face_database (some ("f.png", [1]))
          (some " Eve ")).1.names) :=
  C10_trimmed_name_stored (wEnv [wRect]) face_database "f.png" [1] " Eve " wImg wRect
    (by decide) (by decide) (by decide) (by decide)

/-- Claim C5: any filter kind string outside the four recognized ones
never fails and produces the same processed image as the explicit
`"grayscale"` kind: the dispatch falls back to `convert('L')`, and on a
decodable upload the endpoint returns success whose `processed_image`
payload is identical to the grayscale one. -/
theorem C5_unrecognized_kind_fallback (γ : Type) (env : PILEnv γ) (t : String)
    (fn : String) (data : Bytes) (image : γ)
    (ht : t ∉ ["grayscale", "blur", "sharpen", "edge"])
    (hfn : fn ≠ "") (hdec : env.pilOpen data = .ok image) :
    applyProcessType env t image = applyProcessType env "grayscale" image ∧
    process_image env (some (fn, data)) (some t) =
      .ok ⟨"data:image/png;base64," ++ env.b64encode (env.savePNG (env.convertL image)), t⟩ ∧
    process_image env (some (fn, data)) (some "grayscale") =
      .ok ⟨"data:image/png;base64," ++ env.b64encode (env.savePNG (env.convertL image)),
        "grayscale"⟩ := by
  have h1 : t ≠ "grayscale" := fun h => ht (by simp [h])
  have h2 : t ≠ "blur" := fun h => ht (by simp [h])
  have h3 : t ≠ "sharpen" := fun h => ht (by simp [h])
  have h4 : t ≠ "edge" := fun h => ht (by simp [h])
  refine ⟨?_, ?_, ?_⟩ <;>
    simp [applyProcessType, process_image, hfn, hdec, h1, h2, h3, h4]

/-- Concrete instance of `C5_unrecognized_kind_fallback`: the
unrecognized kind string `"sepia"` on the concrete PIL environment. -/
theorem C5_unrecognized_kind_fallback_witness :
    applyProcessType wPEnv "sepia" 1 = applyProcessType wPEnv "grayscale" 1 ∧
    process_image wPEnv (some ("f.png", [7])) (some "sepia") =
      .ok ⟨"data:image/png;base64," ++ wPEnv.b64encode (wPEnv.savePNG (wPEnv.convertL 1)),
        "sepia"⟩ ∧
    process_image wPEnv (some ("f.png", [7])) (some "grayscale") =
      .ok ⟨"data:image/png;base64," ++ wPEnv.b64encode (wPEnv.savePNG (wPEnv.convertL 1)),
        "grayscale"⟩ :=
  C5_unrecognized_kind_fallback Nat wPEnv "sepia" "f.png" [7] 1
    (by decide) (by decide) (by rfl)

/-- Claim C6: on a decodable upload the detect endpoint always returns
success, with one response entry per classifier detection, 1-based
sequential ids in the classifier's own order, constant name
`"Unknown"`, constant confidence 0.8 and `is_known = false`; zero
detections give success with an empty list and count 0. -/
theorem C6_detect_response (env : Env) (fn : String) (data : Bytes) (image : Img)
    (hfn : fn ≠ "") (hdec : env.imdecode data = some image) :
    detect_faces env (some (fn, data)) =
      .ok ⟨((detect_faces_scan env image).enum.map faceEntryOf).length,
        (detect_faces_scan env image).enum.map faceEntryOf,
        imgWidth image, imgHeight image⟩ ∧
    ((detect_faces_scan env image).enum.map faceEntryOf).length =
      (detect_faces_scan env image).length ∧
    (∀ i (hi : i < (detect_faces_scan env image).length)
        (hif : i < ((detect_faces_scan env image).enum.map faceEntryOf).length),
      (((detect_faces_scan env image).enum.map faceEntryOf).get ⟨i, hif⟩).id = i + 1 ∧
      (((detect_faces_scan env image).enum.map faceEntryOf).get ⟨i, hif⟩).name = "Unknown" ∧
      (((detect_faces_scan env image).enum.map faceEntryOf).get ⟨i, hif⟩).confidence =
        (8 : Rat) / 10 ∧
      (((detect_faces_scan env image).enum.map faceEntryOf).get ⟨i, hif⟩).is_known = false ∧
      (((detect_faces_scan env image).enum.map faceEntryOf).get ⟨i, hif⟩).location =
        ⟨((detect_faces_scan env image).get ⟨i, hi⟩).y,
          ((detect_faces_scan env image).get ⟨i, hi⟩).x +
            ((detect_faces_scan env image).get ⟨i, hi⟩).w,
          ((detect_faces_scan env image).get ⟨i, hi⟩).y +
            ((detect_faces_scan env image).get ⟨i, hi⟩).h,
          ((detect_faces_scan env image).get ⟨i, hi⟩).x⟩) ∧
    (detect_faces_scan env image = [] →
      detect_faces env (some (fn, data)) = .ok ⟨0, [], imgWidth image, imgHeight image⟩) := by
  refine ⟨by simp [detect_faces, hfn, hdec], by simp, ?_, ?_⟩
  · intro i hi hif
    simp [List.get_eq_getElem, List.getElem_map, List.getElem_enum, faceEntryOf]
  · intro h
    simp [detect_faces, hfn, hdec, h]

/-- Concrete instance of `C6_detect_response` on the one-face concrete
environment, hypotheses evaluated. -/
theorem C6_detect_response_witness :
    detect_faces (wEnv [wRect]) (some ("f.png", [1])) =
      .ok ⟨((detect_faces_scan (wEnv [wRect]) wImg).enum.map faceEntryOf).length,
        (detect_faces_scan (wEnv [wRect]) wImg).enum.map faceEntryOf,
        imgWidth wImg, imgHeight wImg⟩ ∧
    ((detect_faces_scan (wEnv [wRect]) wImg).enum.map faceEntryOf).length =
      (detect_faces_scan (wEnv [wRect]) wImg).length ∧
    (∀ i (hi : i < (detect_faces_scan (wEnv [wRect]) wImg).length)
        (hif : i < ((detect_faces_scan (wEnv [wRect]) wImg).enum.map faceEntryOf).length),
      (((detect_faces_scan (wEnv [wRect]) wImg).enum.map faceEntryOf).get ⟨i, hif⟩).id =
        i + 1 ∧
      (((detect_faces_scan (wEnv [wRect]) wImg).enum.map faceEntryOf).get ⟨i, hif⟩).name =
        "Unknown" ∧
      (((detect_faces_scan (wEnv [wRect]) wImg).enum.map faceEntryOf).get
          ⟨i, hif⟩).confidence = (8 : Rat) / 10 ∧
      (((detect_faces_scan (wEnv [wRect]) wImg).enum.map faceEntryOf).get
          ⟨i, hif⟩).is_known = false ∧
      (((detect_faces_scan (wEnv [wRect]) wImg).enum.map faceEntryOf).get
          ⟨i, hif⟩).location =
        ⟨((detect_faces_scan (wEnv [wRect]) wImg).get ⟨i, hi⟩).y,
          ((detect_faces_scan (wEnv [wRect]) wImg).get ⟨i, hi⟩).x +
            ((detect_faces_scan (wEnv [wRect]) wImg).get ⟨i, hi⟩).w,
          ((detect_faces_scan (wEnv [wRect]) wImg).get ⟨i, hi⟩).y +
            ((detect_faces_scan (wEnv [wRect]) wImg).get ⟨i, hi⟩).h,
          ((detect_faces_scan (wEnv [wRect]) wImg).get ⟨i, hi⟩).x⟩) ∧
    (detect_faces_scan (wEnv [wRect]) wImg = [] →
      detect_faces (wEnv [wRect]) (some ("f.png", [1])) =
        .ok ⟨0, [], imgWidth wImg, imgHeight wImg⟩) :=
  C6_detect_response (wEnv [wRect]) "f.png" [1] wImg (by decide) (by decide)
